import Mathlib

/-!
Verification of the libscreenstream specification against the repository
source `src/Sources/screenstream/screenstream.h`.

The repository supplies only C header declarations (no function bodies), so
the development embeds the header itself: C types, declarations and source
lines become Lean data, and the spec's claims become decidable statements
about that data.  The spec describes the supplied material as a *pair* of
headers; the second header of the pair is not under `src/`, so where a claim
depends on it, it is modelled from the spec's words (definitions whose doc
comment starts `Modelled from the spec:`).
-/

/-- C types as they appear in the header.  `constQ` is the `const`
qualifier, `ptr` a pointer, `funPtr1`/`funPtr2` function-pointer types of
one and two parameters, `named` a reference to a typedef name. -/
inductive CType where
  | void
  | bool
  | char
  | int32_t
  | uint8_t
  | constQ (t : CType)
  | ptr (t : CType)
  | funPtr1 (p1 ret : CType)
  | funPtr2 (p1 p2 ret : CType)
  | named (n : String)
deriving DecidableEq, Repr

/-- A formal parameter of a C function or function-pointer typedef:
its type and, when the source names it, its name. -/
structure CParam where
  type : CType
  name : Option String
deriving DecidableEq, Repr

/-- A C statement.  The header declares functions without bodies, so no
value of this type occurs in the embedding of the source; the type exists
so that "a function has no executable logic" is a real statement
(`body = none`) rather than one made true by the embedding's shape. -/
inductive CStmt where
  | skip
  | ret
  | seq (a b : CStmt)
deriving DecidableEq, Repr

/-- A top-level item of a C header: an include directive, an object-like
preprocessor define (with its integer value when it has one), a typedef of
a struct, a typedef of a function-pointer type, an enum, or a function
declaration (with its body when it has one). -/
inductive CDecl where
  | includeDirective (file : String)
  | defineDirective (name : String) (intValue : Option Int)
  | typedefStruct (name : String) (fields : List (CType × String))
  | typedefFunPtr (name : String) (params : List CParam) (ret : CType)
  | enumDecl (name : Option String) (cases : List (String × Int))
  | funDecl (name : String) (params : List CParam) (ret : CType) (body : Option CStmt)
deriving DecidableEq, Repr

/-- The declarations of `src/Sources/screenstream/screenstream.h`,
transcribed in source order (the include guard `#ifndef`/`#define` pair is
recorded as the single define it introduces). -/
def screenstream_h : List CDecl := [
  .defineDirective "SCREENSTREAM_H" none,
  .includeDirective "stdint.h",
  .typedefStruct "ScreenStreamWindowInfo" [
    (.int32_t, "windowId"),
    (.int32_t, "processId"),
    (.ptr (.constQ .char), "title"),
    (.ptr (.constQ .char), "applicationName"),
    (.int32_t, "width"),
    (.int32_t, "height")],
  .typedefFunPtr "WindowListCallback"
    [⟨.ptr (.constQ .void), some "windows"⟩, ⟨.int32_t, some "count"⟩] .void,
  .typedefFunPtr "ThumbnailCallback"
    [⟨.ptr (.constQ .uint8_t), some "data"⟩, ⟨.int32_t, some "length"⟩] .void,
  .typedefStruct "ScreenStreamApplicationInfo" [
    (.int32_t, "processId"),
    (.ptr (.constQ .char), "name"),
    (.ptr (.constQ .char), "bundleIdentifier")],
  .typedefFunPtr "ApplicationListCallback"
    [⟨.ptr (.constQ .void), some "apps"⟩, ⟨.int32_t, some "count"⟩] .void,
  .typedefStruct "ScreenStreamError" [
    (.int32_t, "code"),
    (.ptr (.constQ .char), "domain"),
    (.ptr (.constQ .char), "description")],
  .typedefFunPtr "ScreenStreamErrorCallback"
    [⟨.ptr (.constQ .void), some "errorPtr"⟩] .void,
  .funDecl "CheckCapturePermission" [] .void none,
  .funDecl "IsCapturePermissionGranted" [] .bool none,
  .funDecl "StartCapture" [
    ⟨.int32_t, some "displayId"⟩,
    ⟨.int32_t, some "x"⟩,
    ⟨.int32_t, some "y"⟩,
    ⟨.int32_t, some "width"⟩,
    ⟨.int32_t, some "height"⟩,
    ⟨.int32_t, some "frameRate"⟩,
    ⟨.int32_t, some "fullScreenFrameRate"⟩,
    ⟨.funPtr2 (.ptr (.constQ .uint8_t)) .int32_t .void, some "regionCallback"⟩,
    ⟨.funPtr2 (.ptr (.constQ .uint8_t)) .int32_t .void, some "fullScreenCallback"⟩,
    ⟨.named "ScreenStreamErrorCallback", some "regionStoppedCallback"⟩,
    ⟨.named "ScreenStreamErrorCallback", some "fullScreenStoppedCallback"⟩] .int32_t none,
  .funDecl "StopCapture" [] .int32_t none,
  .funDecl "GetCaptureStatus" [] .int32_t none,
  .funDecl "GetRegionBufferStats" [] .int32_t none,
  .funDecl "GetFullScreenBufferStats" [] .int32_t none,
  .funDecl "GetRegionFrameDropStats" [] .int32_t none,
  .funDecl "GetFullScreenFrameDropStats" [] .int32_t none,
  .funDecl "ResetPerformanceStats" [] .void none,
  .funDecl "GetAvailableWindows" [⟨.ptr (.constQ .void), some "callback"⟩] .void none,
  .funDecl "GetWindowThumbnail" [
    ⟨.int32_t, some "windowId"⟩,
    ⟨.named "ThumbnailCallback", some "callback"⟩] .void none,
  .funDecl "GetAvailableApplications" [⟨.ptr (.constQ .void), some "callback"⟩] .void none
]

/-- Classification of one source line of a header: blank, comment-only,
preprocessor directive, part of a declaration, or executable logic
(a statement inside a function body).  The last class exists so that
"0 lines of logic" is a real statement about the transcription. -/
inductive CLine where
  | blank
  | comment
  | directive
  | declaration
  | logic
deriving DecidableEq, Repr

/-- The 76 lines of `src/Sources/screenstream/screenstream.h`, classified
one by one in source order (lines 1-2 and 4 and 6 and 8 are preprocessor,
line 7 is the C++ linkage brace, lines 11-18 the window-info struct, and
so on through line 76, the closing include-guard `#endif`). -/
def screenstream_h_srcLines : List CLine :=
  [.directive, .directive, .blank, .directive, .blank,
   .directive, .declaration, .directive, .blank, .comment] ++
  List.replicate 8 .declaration ++
  [.blank, .comment, .declaration, .blank, .comment, .declaration, .blank, .comment] ++
  List.replicate 5 .declaration ++
  [.blank, .comment, .declaration, .blank, .comment] ++
  List.replicate 5 .declaration ++
  [.blank, .declaration, .blank, .comment, .declaration, .declaration] ++
  List.replicate 11 .declaration ++
  List.replicate 7 .declaration ++
  [.blank, .comment] ++
  List.replicate 3 .declaration ++
  [.blank, .directive, .declaration, .directive, .blank, .directive]

/-- Modelled from the spec: the second header of the supplied pair is not
under `src/`.  Per spec sections 6 and 9, it carries the other, typed-callback
definitions of the same two symbols: a near-duplicate `ScreenStreamError`
struct and a `ScreenStreamErrorCallback` whose parameter is a typed pointer
to that struct rather than an opaque `const void*`. -/
def screenstream_errors_h : List CDecl := [
  .defineDirective "SCREENSTREAM_ERRORS_H" none,
  .typedefStruct "ScreenStreamError" [
    (.int32_t, "code"),
    (.ptr (.constQ .char), "domain"),
    (.ptr (.constQ .char), "description")],
  .typedefFunPtr "ScreenStreamErrorCallback"
    [⟨.ptr (.constQ (.named "ScreenStreamError")), some "error"⟩] .void
]

/-- Modelled from the spec: the second header's line count is not under
`src/`; the spec puts the supplied pair at 97 lines and the header under
`src/` has 76, leaving 21 for the second header. -/
def screenstream_errors_h_numLines : Nat := 21

/-- Modelled from the spec: the supplied material is declarations only, so
the second header, like the first, has no lines of executable logic. -/
def screenstream_errors_h_logicLines : Nat := 0

/-- The name a header item defines, when it defines one. -/
def declName : CDecl → Option String
  | .includeDirective _ => none
  | .defineDirective n _ => some n
  | .typedefStruct n _ => some n
  | .typedefFunPtr n _ _ => some n
  | .enumDecl n _ => n
  | .funDecl n _ _ _ => some n

/-- All items of a header that define the given name. -/
def declsNamed (ds : List CDecl) (n : String) : List CDecl :=
  ds.filter (fun d => declName d = some n)

/-- The structural function-pointer type a typedef name abbreviates in the
given header, when the header typedefs it. -/
def typedefTarget (ds : List CDecl) (n : String) : Option CType :=
  ds.findSome? fun d =>
    match d with
    | .typedefFunPtr m ps ret =>
        if m = n then
          match ps with
          | [p] => some (.funPtr1 p.type ret)
          | [p, q] => some (.funPtr2 p.type q.type ret)
          | _ => none
        else none
    | _ => none

/-- Replace a typedef name by the function-pointer type it abbreviates in
the given header (typedef names occur only at the top of a parameter type
in this header, so one step of expansion suffices). -/
def resolveType (ds : List CDecl) (t : CType) : CType :=
  match t with
  | .named n => (typedefTarget ds n).getD (.named n)
  | t => t

/-- The field list of the struct of the given name, when the header
typedefs it. -/
def structFields (ds : List CDecl) (n : String) : Option (List (CType × String)) :=
  ds.findSome? fun d =>
    match d with
    | .typedefStruct m fs => if m = n then some fs else none
    | _ => none

/-- The parameter types and return type of the function of the given name,
when the header declares it (parameter names are not part of the call
contract and are dropped; typedef names are kept as written). -/
def funDeclSig (ds : List CDecl) (n : String) : Option (List CType × CType) :=
  ds.findSome? fun d =>
    match d with
    | .funDecl m ps ret _ => if m = n then some (ps.map CParam.type, ret) else none
    | _ => none

/-- The body of the function of the given name, when the header declares
the function and the declaration carries a body. -/
def funDeclBody (ds : List CDecl) (n : String) : Option CStmt :=
  ds.findSome? fun d =>
    match d with
    | .funDecl m _ _ body => if m = n then body else none
    | _ => none

/-- Every function the header declares, with typedef names in its
parameters expanded to the function-pointer types they abbreviate. -/
def headerAbi (ds : List CDecl) : List (String × List CType × CType) :=
  ds.filterMap fun d =>
    match d with
    | .funDecl n ps ret _ => some (n, ps.map (fun p => resolveType ds p.type), ret)
    | _ => none

/-- The ABI listing of spec section 6, written from the spec's words and
not from the header: the spec's `cstring` is `const char*`, its
`byte ptr` is `const uint8_t*`, its untyped pointer parameter is
`const void*`, and its named callback types carry the parameter shapes the
spec's `callback` lines give them
(`ThumbnailCallback(data: byte ptr, length: int32)` and
`ScreenStreamErrorCallback(error: untyped ptr)`). -/
def specAbi : List (String × List CType × CType) := [
  ("CheckCapturePermission", [], .void),
  ("IsCapturePermissionGranted", [], .bool),
  ("StartCapture",
    [.int32_t, .int32_t, .int32_t, .int32_t, .int32_t, .int32_t, .int32_t,
     .funPtr2 (.ptr (.constQ .uint8_t)) .int32_t .void,
     .funPtr2 (.ptr (.constQ .uint8_t)) .int32_t .void,
     .funPtr1 (.ptr (.constQ .void)) .void,
     .funPtr1 (.ptr (.constQ .void)) .void], .int32_t),
  ("StopCapture", [], .int32_t),
  ("GetCaptureStatus", [], .int32_t),
  ("GetRegionBufferStats", [], .int32_t),
  ("GetFullScreenBufferStats", [], .int32_t),
  ("GetRegionFrameDropStats", [], .int32_t),
  ("GetFullScreenFrameDropStats", [], .int32_t),
  ("ResetPerformanceStats", [], .void),
  ("GetAvailableWindows", [.ptr (.constQ .void)], .void),
  ("GetWindowThumbnail",
    [.int32_t, .funPtr2 (.ptr (.constQ .uint8_t)) .int32_t .void], .void),
  ("GetAvailableApplications", [.ptr (.constQ .void)], .void)
]

/-- Whether a parameter of the given type is a function pointer (directly,
or through a typedef name the header gives a function-pointer type). -/
def isFunctionPointerType (ds : List CDecl) : CType → Bool
  | .funPtr1 _ _ => true
  | .funPtr2 _ _ _ => true
  | .named n => (typedefTarget ds n).isSome
  | _ => false

/-- Whether a header item is an enum declaration. -/
def isEnumDecl : CDecl → Bool
  | .enumDecl _ _ => true
  | _ => false

/-- Whether a header item is a preprocessor define carrying an integer
constant value. -/
def isIntConstDefine : CDecl → Bool
  | .defineDirective _ (some _) => true
  | _ => false

/-- The type names a C type's spelling refers to: the typedef names it
mentions, together with the standard typedef names `int32_t` and `uint8_t`
and, before C23, the name `bool`, none of which the core C language
defines by itself. -/
def typeNamesUsed : CType → List String
  | .void => []
  | .bool => ["bool"]
  | .char => []
  | .int32_t => ["int32_t"]
  | .uint8_t => ["uint8_t"]
  | .constQ t => typeNamesUsed t
  | .ptr t => typeNamesUsed t
  | .funPtr1 p r => typeNamesUsed p ++ typeNamesUsed r
  | .funPtr2 p q r => typeNamesUsed p ++ typeNamesUsed q ++ typeNamesUsed r
  | .named n => [n]

/-- Whether any declared function of the header takes a parameter whose
type mentions the given typedef name, at its top or anywhere inside it. -/
def usedAsFunParam (ds : List CDecl) (n : String) : Bool :=
  ds.any fun d =>
    match d with
    | .funDecl _ ps _ _ => ps.any fun p => (typeNamesUsed p.type).contains n
    | _ => false

/-- Whether a header item is a function declaration carrying a body. -/
def declHasBody : CDecl → Bool
  | .funDecl _ _ _ (some _) => true
  | _ => false

/-- All type names the header's declarations refer to. -/
def headerTypeNamesUsed (ds : List CDecl) : List String :=
  ds.flatMap fun d =>
    match d with
    | .typedefStruct _ fs => fs.flatMap (fun f => typeNamesUsed f.1)
    | .typedefFunPtr _ ps ret =>
        ps.flatMap (fun p => typeNamesUsed p.type) ++ typeNamesUsed ret
    | .funDecl _ ps ret _ =>
        ps.flatMap (fun p => typeNamesUsed p.type) ++ typeNamesUsed ret
    | _ => []

/-- The type names a standard include makes available to a C translation
unit: `stdint.h` defines the fixed-width integer typedefs and `stdbool.h`
defines `bool` (before C23, where `bool` becomes a keyword). -/
def includeProvidedTypes : String → List String
  | "stdint.h" =>
      ["int8_t", "int16_t", "int32_t", "int64_t",
       "uint8_t", "uint16_t", "uint32_t", "uint64_t", "intptr_t", "uintptr_t"]
  | "stdbool.h" => ["bool"]
  | _ => []

/-- The files a header includes. -/
def headerIncludes (ds : List CDecl) : List String :=
  ds.filterMap fun d =>
    match d with
    | .includeDirective f => some f
    | _ => none

/-- The type names a header itself typedefs. -/
def headerDefinedTypeNames (ds : List CDecl) : List String :=
  ds.filterMap fun d =>
    match d with
    | .typedefStruct n _ => some n
    | .typedefFunPtr n _ _ => some n
    | _ => none

/-- Whether every type name a header refers to is defined for the
translation unit: by the language itself (`bool` only when `boolBuiltin`
holds, i.e. C++ or C23), by one of the header's includes, or by one of
the header's own typedefs. -/
def selfContainedFor (ds : List CDecl) (boolBuiltin : Bool) : Bool :=
  (headerTypeNamesUsed ds).all fun n =>
    (boolBuiltin && n = "bool") ||
    (headerIncludes ds).any (fun f => (includeProvidedTypes f).contains n) ||
    (headerDefinedTypeNames ds).contains n

/-- Modelled from the spec: the capture backend holding the performance
counters is not under `src/`.  The spec's statistics surface names four
counters, one buffered-frame count and one dropped-frame count per stream
(region and full screen). -/
structure PerformanceStats where
  regionBuffer : Int
  fullScreenBuffer : Int
  regionFrameDrop : Int
  fullScreenFrameDrop : Int
deriving DecidableEq, Repr

/-- Modelled from the spec: `ResetPerformanceStats()` resets all four
counters and returns no value; the baseline value itself is unspecified in
the spec and is taken here as 0. -/
def ResetPerformanceStats (_s : PerformanceStats) : PerformanceStats :=
  { regionBuffer := 0, fullScreenBuffer := 0,
    regionFrameDrop := 0, fullScreenFrameDrop := 0 }

/-- Modelled from the spec: `GetRegionBufferStats()` returns the count of
buffered frames for the region stream. -/
def GetRegionBufferStats (s : PerformanceStats) : Int := s.regionBuffer

/-- Modelled from the spec: `GetFullScreenBufferStats()` returns the count
of buffered frames for the full-screen stream. -/
def GetFullScreenBufferStats (s : PerformanceStats) : Int := s.fullScreenBuffer

/-- Modelled from the spec: `GetRegionFrameDropStats()` returns the count
of dropped frames for the region stream. -/
def GetRegionFrameDropStats (s : PerformanceStats) : Int := s.regionFrameDrop

/-- Modelled from the spec: `GetFullScreenFrameDropStats()` returns the
count of dropped frames for the full-screen stream. -/
def GetFullScreenFrameDropStats (s : PerformanceStats) : Int := s.fullScreenFrameDrop

/-- Modelled from the spec: the thumbnail backend is not under `src/`.
`GetWindowThumbnail(windowId, callback)` delivers a byte buffer of image
data together with its length to the given callback; the backend's choice
of image bytes per window identifier is left abstract, so nothing is
assumed about invalid window identifiers. -/
def GetWindowThumbnail (backend : Int → List Nat) (windowId : Int)
    (callback : List Nat → Int → α) : α :=
  let d := backend windowId
  callback d (d.length : Int)

/-- Claim C1: across the supplied pair of headers, the symbols
`ScreenStreamError` and `ScreenStreamErrorCallback` have two
near-duplicate, incompatible definitions — the error struct recurs with
identical fields while the callback's parameter is an opaque
`const void*` in one header and a typed `const ScreenStreamError*` in the
other — and the header at `src/Sources/screenstream/screenstream.h`
declares each of the two symbols exactly once, with the callback taking
the opaque `const void*` pointer. -/
theorem C1_duplicate_error_symbols :
    (declsNamed screenstream_h "ScreenStreamError").length = 1 ∧
    (declsNamed screenstream_h "ScreenStreamErrorCallback").length = 1 ∧
    typedefTarget screenstream_h "ScreenStreamErrorCallback" =
      some (.funPtr1 (.ptr (.constQ .void)) .void) ∧
    (declsNamed screenstream_errors_h "ScreenStreamError").length = 1 ∧
    (declsNamed screenstream_errors_h "ScreenStreamErrorCallback").length = 1 ∧
    typedefTarget screenstream_errors_h "ScreenStreamErrorCallback" =
      some (.funPtr1 (.ptr (.constQ (.named "ScreenStreamError"))) .void) ∧
    typedefTarget screenstream_h "ScreenStreamErrorCallback" ≠
      typedefTarget screenstream_errors_h "ScreenStreamErrorCallback" ∧
    structFields screenstream_h "ScreenStreamError" =
      structFields screenstream_errors_h "ScreenStreamError" := by
  decide

/-- Claim C2: every function the header declares is callable with exactly
the argument types, and returns exactly the type, that the spec's section
6 ABI listing gives it (header signatures with typedef names expanded
coincide with the listing written from the spec's words, function by
function and in order). -/
theorem C2_abi_matches_spec : headerAbi screenstream_h = specAbi := by
  decide

/-- Claim C3: for every state of the capture backend's counters, calling
`ResetPerformanceStats` — declared in the header with no parameters and no
return value — resets all four counters, so that each of the four
`Get*Stats` functions, called immediately afterwards, returns the defined
baseline value 0. -/
theorem C3_reset_gives_baseline (s : PerformanceStats) :
    funDeclSig screenstream_h "ResetPerformanceStats" = some ([], .void) ∧
    GetRegionBufferStats (ResetPerformanceStats s) = 0 ∧
    GetFullScreenBufferStats (ResetPerformanceStats s) = 0 ∧
    GetRegionFrameDropStats (ResetPerformanceStats s) = 0 ∧
    GetFullScreenFrameDropStats (ResetPerformanceStats s) = 0 := by
  exact ⟨by decide, rfl, rfl, rfl, rfl⟩

/-- Witness for C3 at the concrete counter state (5, 6, 7, 8). -/
theorem C3_reset_gives_baseline_witness :
    funDeclSig screenstream_h "ResetPerformanceStats" = some ([], .void) ∧
    GetRegionBufferStats (ResetPerformanceStats ⟨5, 6, 7, 8⟩) = 0 ∧
    GetFullScreenBufferStats (ResetPerformanceStats ⟨5, 6, 7, 8⟩) = 0 ∧
    GetRegionFrameDropStats (ResetPerformanceStats ⟨5, 6, 7, 8⟩) = 0 ∧
    GetFullScreenFrameDropStats (ResetPerformanceStats ⟨5, 6, 7, 8⟩) = 0 :=
  C3_reset_gives_baseline ⟨5, 6, 7, 8⟩

/-- Claim C4: the supplied material is exclusively declarations — the
header under `src/` has 76 source lines, none of them executable logic and
no declared function carrying a body, and together with the spec-modelled
second header of the pair it comes to 97 lines with 0 lines of logic. -/
theorem C4_declarations_only :
    screenstream_h_srcLines.length = 76 ∧
    screenstream_h_srcLines.count .logic = 0 ∧
    screenstream_h.any declHasBody = false ∧
    screenstream_h_srcLines.length + screenstream_errors_h_numLines = 97 ∧
    screenstream_errors_h_logicLines = 0 ∧
    screenstream_errors_h.any declHasBody = false := by
  decide

/-- Claim C5: `ScreenStreamWindowInfo` has exactly the fields
`int32 windowId`, `int32 processId`, C-string `title`, C-string
`applicationName`, `int32 width`, `int32 height` in that order, and
`ScreenStreamApplicationInfo` has exactly the fields `int32 processId`,
C-string `name`, C-string `bundleIdentifier` in that order. -/
theorem C5_struct_fields :
    structFields screenstream_h "ScreenStreamWindowInfo" =
      some [(.int32_t, "windowId"),
            (.int32_t, "processId"),
            (.ptr (.constQ .char), "title"),
            (.ptr (.constQ .char), "applicationName"),
            (.int32_t, "width"),
            (.int32_t, "height")] ∧
    structFields screenstream_h "ScreenStreamApplicationInfo" =
      some [(.int32_t, "processId"),
            (.ptr (.constQ .char), "name"),
            (.ptr (.constQ .char), "bundleIdentifier")] := by
  decide

/-- Claim C6: `StartCapture`, `StopCapture` and `GetCaptureStatus` each
return a plain `int32_t` status code, and the header contains no enum and
no integer-valued preprocessor constant, so no declaration assigns meaning
to any status-code value. -/
theorem C6_untyped_status_codes :
    (funDeclSig screenstream_h "StartCapture").map (fun s => s.2) =
      some .int32_t ∧
    funDeclSig screenstream_h "StopCapture" = some ([], .int32_t) ∧
    funDeclSig screenstream_h "GetCaptureStatus" = some ([], .int32_t) ∧
    screenstream_h.any isEnumDecl = false ∧
    screenstream_h.any isIntConstDefine = false := by
  decide

/-- Claim C7: `GetAvailableWindows` and `GetAvailableApplications` each
take their callback parameter as the opaque pointer type `const void*` —
which is not a function-pointer type, directly or through any typedef of
the header — and each returns void. -/
theorem C7_enumeration_callbacks_untyped :
    funDeclSig screenstream_h "GetAvailableWindows" =
      some ([.ptr (.constQ .void)], .void) ∧
    funDeclSig screenstream_h "GetAvailableApplications" =
      some ([.ptr (.constQ .void)], .void) ∧
    isFunctionPointerType screenstream_h (.ptr (.constQ .void)) = false := by
  decide

/-- Claim C8: `GetWindowThumbnail` is declared with parameters `int32_t`
and `ThumbnailCallback` — a callback of type
`(const uint8_t*, int32_t) -> void` — and returns void; for every backend
and every window identifier, it delivers the backend's byte buffer for
that window together with that buffer's length to the given callback (the
backend's behaviour on an invalid identifier stays abstract). -/
theorem C8_thumbnail_delivery (backend : Int → List Nat) (windowId : Int) :
    funDeclSig screenstream_h "GetWindowThumbnail" =
      some ([.int32_t, .named "ThumbnailCallback"], .void) ∧
    typedefTarget screenstream_h "ThumbnailCallback" =
      some (.funPtr2 (.ptr (.constQ .uint8_t)) .int32_t .void) ∧
    GetWindowThumbnail backend windowId (fun d n => (d, n)) =
      (backend windowId, ((backend windowId).length : Int)) := by
  exact ⟨by decide, by decide, rfl⟩

/-- Witness for C8 at the concrete backend that returns the three bytes
1, 2, 3 for every window, applied at window identifier 7. -/
theorem C8_thumbnail_delivery_witness :
    funDeclSig screenstream_h "GetWindowThumbnail" =
      some ([.int32_t, .named "ThumbnailCallback"], .void) ∧
    typedefTarget screenstream_h "ThumbnailCallback" =
      some (.funPtr2 (.ptr (.constQ .uint8_t)) .int32_t .void) ∧
    GetWindowThumbnail (fun _ => [1, 2, 3]) 7 (fun d n => (d, n)) =
      ([1, 2, 3], 3) :=
  C8_thumbnail_delivery (fun _ => [1, 2, 3]) 7

/-- Claim C9: the header includes only `stdint.h`, not `stdbool.h`, yet
declares `IsCapturePermissionGranted` with return type `bool`; it is
therefore not self-contained for a C translation unit before C23, and its
declared types are well-formed exactly where `bool` is already defined by
the language (C++ or C23). -/
theorem C9_not_self_contained_pre_c23 :
    headerIncludes screenstream_h = ["stdint.h"] ∧
    funDeclSig screenstream_h "IsCapturePermissionGranted" =
      some ([], .bool) ∧
    (headerTypeNamesUsed screenstream_h).contains "bool" = true ∧
    selfContainedFor screenstream_h false = false ∧
    selfContainedFor screenstream_h true = true := by
  decide

/-- Claim C10: the typedefs `WindowListCallback` and
`ApplicationListCallback` exist in the header but are not the parameter
type of any declared function; `GetAvailableWindows` and
`GetAvailableApplications` accept only `const void*`, so no declared
operation enforces the list-callback signature by type. -/
theorem C10_list_callback_typedefs_unused :
    (typedefTarget screenstream_h "WindowListCallback").isSome = true ∧
    (typedefTarget screenstream_h "ApplicationListCallback").isSome = true ∧
    usedAsFunParam screenstream_h "WindowListCallback" = false ∧
    usedAsFunParam screenstream_h "ApplicationListCallback" = false ∧
    funDeclSig screenstream_h "GetAvailableWindows" =
      some ([.ptr (.constQ .void)], .void) ∧
    funDeclSig screenstream_h "GetAvailableApplications" =
      some ([.ptr (.constQ .void)], .void) := by
  decide
